import Mathlib

/-!
Shallow embedding of `examples/api_widgets_demo.ipynb` from the
sliderule-python repository.

The notebook wires external collaborators together: the `icesat2` REST
client, the `ipysliderule` widget/map modules, matplotlib/cartopy, and the
`io` file helper.  The logic that lives in the notebook itself — the
per-polygon parameter dictionary, the request loop folding `gdf.append`
over the drawn regions starting from `icesat2.__emptyframe()`, the reuse
of the loop variable `parms` in the save cell, the two-figure plotting
cell, and the `io.to_file` / `io.from_file` argument lists — is embedded
below as executable Lean definitions.  External calls are taken as
function parameters; collaborators whose code is not part of this
repository (the widget value ranges, the result-row schema, the file
helper's store semantics) are modelled from the specification and marked
as such in their doc comments.
-/

namespace SlideRuleDemo

/-- JSON-style values as they appear in the notebook's parameter record:
scalars (numbers and strings), lists, and nested string-keyed mappings. -/
inductive Value where
  | num  : Int → Value
  | str  : String → Value
  | list : List Value → Value
  | dict : List (String × Value) → Value
deriving Repr

/-- A parameter record: a flat mapping from string keys to values, kept in
insertion order as a Python dict is. -/
abbrev Parms := List (String × Value)

/-- Modelled from the spec: the output formats offered by the
`ipysliderule` save/load widgets (`SRwidgets.format`), whose definition is
outside this repository.  The notebook's save cell comment reads
"save to file in format (HDF5 or netCDF)". -/
inductive FileFormat where
  | hdf5
  | netcdf
deriving Repr, DecidableEq

/-- The widget values the notebook reads (`SRwidgets.<name>.value`, and
`SRwidgets.surface_type.index`, `SRwidgets.file`, `SRwidgets.format`).
The widget machinery itself is external; only the values it hands the
notebook are represented. -/
structure SRWidgetValues where
  asset : Value
  release : Value
  surface_type_index : Int
  length : Value
  step : Value
  confidence : Value
  land_class : List Value
  iteration : Value
  spread : Value
  count : Value
  window : Value
  sigma : Value
  file : String
  format : FileFormat

/-- The parameter dictionary the request cell builds for one drawn polygon:
`parms = {"poly": poly, "srt": ..., ..., "sigma_r_max": ...}`, keys in the
source's order. -/
def parmsFor (w : SRWidgetValues) (poly : Value) : Parms :=
  [ ("poly", poly),
    ("srt", Value.num w.surface_type_index),
    ("len", w.length),
    ("res", w.step),
    ("cnf", w.confidence),
    ("atl08_class", Value.list w.land_class),
    ("maxi", w.iteration),
    ("ats", w.spread),
    ("cnt", w.count),
    ("H_min_win", w.window),
    ("sigma_r_max", w.sigma) ]

/-- Modelled from the spec: one row of the tabular dataset returned by the
processing endpoint (`icesat2.atl06p`, outside this repository) — a
geolocated point with an elevation attribute, exactly the columns the
plotting cell consumes (`gdf.geometry.x`, `gdf.geometry.y`,
`gdf.h_mean`). -/
structure Atl06Row where
  x : Int
  y : Int
  h_mean : Int
deriving Repr, DecidableEq

/-- A result table (GeoDataFrame) as an ordered list of rows; `append`
is list concatenation. -/
abbrev Frame := List Atl06Row

/-- `icesat2.__emptyframe()`: the empty result table. -/
def emptyframe : Frame := []

/-- The request cell's loop:
`for poly in m.regions: parms = {...}; gdf = gdf.append(icesat2.atl06p(parms, ...))`
starting from `gdf = icesat2.__emptyframe()`.  `atl06p` is the external
endpoint call, taken as a parameter. -/
def requestLoop (atl06p : Parms → Frame) (w : SRWidgetValues)
    (regions : List Value) : Frame :=
  regions.foldl (fun gdf poly => gdf ++ atl06p (parmsFor w poly)) emptyframe

/-- The same loop, instrumented to also record, in order, every parameter
record the notebook submits to the endpoint. -/
def requestLoopTraced (atl06p : Parms → Frame) (w : SRWidgetValues)
    (regions : List Value) : List Parms × Frame :=
  regions.foldl
    (fun acc poly =>
      let p := parmsFor w poly
      (acc.1 ++ [p], acc.2 ++ atl06p p))
    ([], emptyframe)

theorem requestLoopTraced_spec (atl06p : Parms → Frame) (w : SRWidgetValues)
    (regions : List Value) :
    requestLoopTraced atl06p w regions =
      (regions.map (parmsFor w),
       (regions.map (fun poly => atl06p (parmsFor w poly))).flatten) := by
  suffices h : ∀ (acc : List Parms × Frame),
      regions.foldl
        (fun acc poly =>
          let p := parmsFor w poly
          (acc.1 ++ [p], acc.2 ++ atl06p p)) acc =
      (acc.1 ++ regions.map (parmsFor w),
       acc.2 ++ (regions.map (fun poly => atl06p (parmsFor w poly))).flatten) by
    simpa [requestLoopTraced, emptyframe] using h ([], [])
  induction regions with
  | nil => intro acc; simp
  | cons poly rest ih =>
      intro acc
      simp only [List.foldl_cons, List.map_cons, List.flatten]
      rw [ih]
      simp

theorem requestLoop_eq_traced (atl06p : Parms → Frame) (w : SRWidgetValues)
    (regions : List Value) :
    requestLoop atl06p w regions = (requestLoopTraced atl06p w regions).2 := by
  suffices h : ∀ (ps : List Parms) (gdf : Frame),
      regions.foldl (fun gdf poly => gdf ++ atl06p (parmsFor w poly)) gdf =
      (regions.foldl
        (fun acc poly =>
          let p := parmsFor w poly
          (acc.1 ++ [p], acc.2 ++ atl06p p)) (ps, gdf)).2 by
    simpa [requestLoop, requestLoopTraced, emptyframe] using h [] []
  induction regions with
  | nil => intro ps gdf; simp
  | cons poly rest ih =>
      intro ps gdf
      simp only [List.foldl_cons]
      exact ih (ps ++ [parmsFor w poly]) (gdf ++ atl06p (parmsFor w poly))

/-- Python dict assignment `p[k] = v`: replace the value when the key is
present, append the pair otherwise. -/
def setKey (p : Parms) (k : String) (v : Value) : Parms :=
  if p.any (fun kv => kv.1 = k) then
    p.map (fun kv => if kv.1 = k then (k, v) else kv)
  else p ++ [(k, v)]

/-- The value of the Python name `parms` after the request cell's loop:
`parms` is the loop body's last binding, so it is the record of the last
region, and it is unbound (`none`) when no region was drawn. -/
def parmsAfterLoop (w : SRWidgetValues) (regions : List Value) : Option Parms :=
  regions.foldl (fun _ poly => some (parmsFor w poly)) none

theorem parmsAfterLoop_eq_last (w : SRWidgetValues) (regions : List Value) :
    parmsAfterLoop w regions = regions.getLast?.map (parmsFor w) := by
  suffices h : ∀ (acc : Option Parms),
      regions.foldl (fun _ poly => some (parmsFor w poly)) acc =
        match regions.getLast? with
        | some p => some (parmsFor w p)
        | none => acc by
    cases hr : regions.getLast? <;> simpa [parmsAfterLoop, hr] using h none
  induction regions with
  | nil => intro acc; simp
  | cons poly rest ih =>
      intro acc
      cases rest with
      | nil => simp
      | cons q qs =>
          have hne : (q :: qs) ≠ ([] : List Value) := by simp
          obtain ⟨p, hp⟩ : ∃ p, (q :: qs).getLast? = some p := by
            cases hq : (q :: qs).getLast? with
            | some p => exact ⟨p, rfl⟩
            | none => exact absurd (List.getLast?_eq_none_iff.mp hq) hne
          simp only [List.foldl_cons] at ih ⊢
          rw [ih none, List.getLast?_cons_cons, hp]

/-- The service version record returned by `icesat2.get_version()`: the
notebook reads `version["icesat2"]["version"]` and
`version["icesat2"]["commit"]`. -/
structure ServiceVersion where
  version : Value
  commit : Value

/-- The argument list of the `io.to_file` call in the save cell. -/
structure ToFileCall where
  gdf : Frame
  file : String
  format : FileFormat
  driver : String
  parameters : Parms
  regions : List Value
  verbose : Bool

/-- The argument list of the `io.from_file` call in the load cell. -/
structure FromFileCall where
  file : String
  format : FileFormat
  driver : String

/-- The `io.to_file` argument list the save cell assembles once `parms` is
bound: `io.to_file(gdf, SRwidgets.file, format=SRwidgets.format,
driver='pytables', parameters=parms, regions=m.regions, verbose=True)`,
after `parms['version']` and `parms['commit']` are set from the service
version. -/
def toFileArgs (ver : ServiceVersion) (w : SRWidgetValues)
    (regions : List Value) (gdf : Frame) (parms : Parms) : ToFileCall :=
  { gdf := gdf
    file := w.file
    format := w.format
    driver := "pytables"
    parameters := setKey (setKey parms "version" ver.version) "commit" ver.commit
    regions := regions
    verbose := true }

/-- The save cell: augment the loop's `parms` with the service version and
call `io.to_file`.  When no polygon was processed the name `parms` is
unbound and the cell raises a `NameError` before any file is written. -/
def saveStep (ver : ServiceVersion) (w : SRWidgetValues)
    (regions : List Value) (gdf : Frame) : Except String ToFileCall :=
  match parmsAfterLoop w regions with
  | none => Except.error "NameError: name parms is not defined"
  | some parms => Except.ok (toFileArgs ver w regions gdf parms)

/-- The load cell's `io.from_file(SRwidgets.file, format=SRwidgets.format,
driver='pytables')` argument list. -/
def loadStep (w : SRWidgetValues) : FromFileCall :=
  { file := w.file, format := w.format, driver := "pytables" }

/-- Modelled from the spec: the state of the filesystem as the `io` file
helper (outside this repository) sees it — for each path, the format it
was written in and the table it holds. -/
abbrev FileStore := String → Option (FileFormat × Frame)

/-- Modelled from the spec: `io.to_file` writes the table to the named
path in the requested format. -/
def to_file (store : FileStore) (c : ToFileCall) : FileStore :=
  fun path => if path = c.file then some (c.format, c.gdf) else store path

/-- Modelled from the spec: `io.from_file` reads the table back from the
named path, provided it was written in the requested format. -/
def from_file (store : FileStore) (c : FromFileCall) : Option Frame :=
  match store c.file with
  | some (fmt, gdf) => if fmt = c.format then some gdf else none
  | none => none

/-- The observable steps of the notebook's flow, in the granularity the
specification uses. -/
inductive Step where
  | setWidgets
  | drawPolygons
  | assembleParms
  | callEndpoint
  | receiveTable
  | renderPlot (fig : Nat)
  | saveFile
  | loadFile
deriving Repr, DecidableEq

/-- The flow position of each step in the specification's ordering:
widgets → drawing → assemble → call → receive → plots → persist →
reload. -/
def Step.stage : Step → Nat
  | .setWidgets => 0
  | .drawPolygons => 1
  | .assembleParms => 2
  | .callEndpoint => 3
  | .receiveTable => 4
  | .renderPlot _ => 5
  | .saveFile => 6
  | .loadFile => 7

/-- The events of the request cell's loop body, repeated once per drawn
region: build `parms`, call `icesat2.atl06p`, append the received table. -/
def requestEvents (n : Nat) : List Step :=
  (List.replicate n
    [Step.assembleParms, Step.callEndpoint, Step.receiveTable]).flatten

/-- The notebook's event trace when its cells are executed top to bottom
with `n` drawn regions: the widget cell, the map cell, the request loop,
the plotting cell's two figures, the save cell, the load cell. -/
def notebookTrace (n : Nat) : List Step :=
  [Step.setWidgets, Step.drawPolygons] ++ requestEvents n ++
    [Step.renderPlot 1, Step.renderPlot 2, Step.saveFile, Step.loadFile]

theorem requestEvents_mem (n : Nat) :
    ∀ s ∈ requestEvents n,
      s = Step.assembleParms ∨ s = Step.callEndpoint ∨ s = Step.receiveTable := by
  induction n with
  | zero => intro s hs; simp [requestEvents] at hs
  | succ k ih =>
      intro s hs
      simp only [requestEvents, List.replicate_succ, List.flatten_cons,
        List.mem_append, List.mem_cons] at hs
      rcases hs with h | h
      · tauto
      · exact ih s (by simpa [requestEvents] using h)

/-- What the plotting cell draws in each figure. -/
inductive PlotKind where
  | globalGroundTracks
  | localElevations
deriving Repr, DecidableEq

/-- One matplotlib figure created by the plotting cell. -/
structure Figure where
  num : Nat
  kind : PlotKind
  hasColorbar : Bool
deriving Repr, DecidableEq

/-- The figures the plotting cell creates, in order: `plt.subplots(num=1,
...)` plotting the ground-track locations on a world extent, then
`plt.subplots(num=2, ...)` scattering the segment elevations with a
colorbar added via `f2.colorbar(...)`. -/
def plottingCellFigures : List Figure :=
  [ { num := 1, kind := PlotKind.globalGroundTracks, hasColorbar := false },
    { num := 2, kind := PlotKind.localElevations, hasColorbar := true } ]

/-- The data the plotting cell's elevation scatter reads from the result
table: `ax2.scatter(gdf.geometry.x, gdf.geometry.y, c=gdf.h_mean, ...)`. -/
def scatterPoints (gdf : Frame) : List (Int × Int × Int) :=
  gdf.map (fun r => (r.x, r.y, r.h_mean))

/-- The external collaborators the notebook calls, each allowed to fail:
the endpoint call, the version query, the plotting backend, and the file
helper's save and load.  The notebook holds no error handler, so these
are the only error sources besides the interpreter's `NameError`. -/
structure ExternalCallsE (ε : Type) where
  atl06p : Parms → Except ε Frame
  get_version : Except ε ServiceVersion
  renderPlots : Frame → Except ε Unit
  to_fileE : ToFileCall → Except ε Unit
  from_fileE : FromFileCall → Except ε Frame

/-- The request loop when the endpoint call may fail: the first failing
call aborts the loop with its error, as an uncaught Python exception
aborts the cell. -/
def runRequestsE {ε : Type} (atl06p : Parms → Except ε Frame)
    (w : SRWidgetValues) (regions : List Value) : Except ε Frame :=
  regions.foldlM
    (fun gdf poly => (atl06p (parmsFor w poly)).map (fun df => gdf ++ df))
    emptyframe

/-- The notebook's whole effectful flow with fallible externals, composed
exactly as the cells run: request loop, plotting, version query, the save
cell's use of the loop variable `parms` (a `NameError` when unbound), the
`io.to_file` call, then the `io.from_file` call.  There is no `try` or
`except`: each step's error is the final result. -/
def runNotebookE {ε : Type} (E : ExternalCallsE ε) (nameErr : ε)
    (w : SRWidgetValues) (regions : List Value) : Except ε Frame := do
  let gdf ← runRequestsE E.atl06p w regions
  let _ ← E.renderPlots gdf
  let ver ← E.get_version
  let parms ← match parmsAfterLoop w regions with
    | none => Except.error nameErr
    | some p => Except.ok p
  let _ ← E.to_fileE (toFileArgs ver w regions gdf parms)
  E.from_fileE (loadStep w)

theorem runRequestsE_error_mem {ε : Type} (atl06p : Parms → Except ε Frame)
    (w : SRWidgetValues) (regions : List Value) (e : ε) :
    runRequestsE atl06p w regions = Except.error e →
      ∃ poly ∈ regions, atl06p (parmsFor w poly) = Except.error e := by
  suffices h : ∀ (init : Frame),
      regions.foldlM
        (fun gdf poly => (atl06p (parmsFor w poly)).map (fun df => gdf ++ df))
        init = Except.error e →
      ∃ poly ∈ regions, atl06p (parmsFor w poly) = Except.error e by
    exact h emptyframe
  induction regions with
  | nil =>
      intro init h
      exact absurd h (by simp [List.foldlM, pure, Except.pure])
  | cons poly rest ih =>
      intro init h
      rw [List.foldlM_cons] at h
      cases hc : atl06p (parmsFor w poly) with
      | error e₂ =>
          rw [hc] at h
          have h2 : (Except.error e₂ : Except ε Frame) = Except.error e := h
          exact ⟨poly, List.mem_cons_self poly rest,
            by rw [hc]; exact congrArg Except.error (Except.error.inj h2)⟩
      | ok df =>
          rw [hc] at h
          have h2 :
              rest.foldlM
                (fun gdf poly =>
                  (atl06p (parmsFor w poly)).map (fun df => gdf ++ df))
                (init ++ df) = Except.error e := h
          obtain ⟨q, hq, hqe⟩ := ih (init ++ df) h2
          exact ⟨q, List.mem_cons_of_mem poly hq, hqe⟩

/-- Everything the notebook's run depends on, fixed from outside: the
endpoint, the service version, the user's widget settings, the regions the
user draws, and the filesystem. -/
structure Externals where
  atl06p : Parms → Frame
  get_version : ServiceVersion
  widgetValues : SRWidgetValues
  drawnRegions : List Value
  store0 : FileStore

/-- The Python names the notebook binds, cell by cell: `SRwidgets`,
`m.regions`, the loop variable `parms`, `gdf`, the figures drawn so far,
and the filesystem state.  Unbound names are `none`. -/
structure NotebookState where
  widgets : Option SRWidgetValues
  regions : List Value
  parms : Option Parms
  gdf : Option Frame
  figures : List Figure
  store : FileStore

/-- The interpreter state before any cell has run. -/
def initState (E : Externals) : NotebookState :=
  { widgets := none, regions := [], parms := none, gdf := none,
    figures := [], store := E.store0 }

/-- Cell 1: imports and autoreload — binds nothing the model tracks. -/
def cellImports (s : NotebookState) : Except String NotebookState :=
  Except.ok s

/-- Cell 2: `icesat2.init(...)`; `SRwidgets = ipysliderule.widgets()` and
the `VBox` display — the user's widget values become available. -/
def cellInitWidgets (E : Externals) (s : NotebookState) :
    Except String NotebookState :=
  Except.ok { s with widgets := some E.widgetValues }

/-- Cell 3: `m = ipysliderule.leaflet(...)`; the user draws the regions. -/
def cellMap (E : Externals) (s : NotebookState) :
    Except String NotebookState :=
  Except.ok { s with regions := E.drawnRegions }

/-- Cell 4: the request loop — builds `parms` per region and folds the
endpoint results into `gdf` starting from the empty frame. -/
def cellRequest (E : Externals) (s : NotebookState) :
    Except String NotebookState :=
  match s.widgets with
  | none => Except.error "NameError: name SRwidgets is not defined"
  | some w =>
      Except.ok { s with
        gdf := some (requestLoop E.atl06p w s.regions),
        parms := parmsAfterLoop w s.regions }

/-- Cell 5: the plotting cell — reads `gdf` and draws the two figures. -/
def cellPlots (s : NotebookState) : Except String NotebookState :=
  match s.gdf with
  | none => Except.error "NameError: name gdf is not defined"
  | some _ => Except.ok { s with figures := s.figures ++ plottingCellFigures }

/-- Cell 6: `display(SRwidgets.filesaver)` — binds nothing the model
tracks. -/
def cellDisplaySaver (s : NotebookState) : Except String NotebookState :=
  Except.ok s

/-- Cell 7: the save cell — augments the loop's `parms` with the service
version and writes `gdf` through `io.to_file`. -/
def cellSave (E : Externals) (s : NotebookState) :
    Except String NotebookState :=
  match s.widgets, s.gdf, s.parms with
  | some w, some gdf, some parms =>
      Except.ok { s with
        store := to_file s.store (toFileArgs E.get_version w s.regions gdf parms) }
  | _, _, none => Except.error "NameError: name parms is not defined"
  | _, _, _ => Except.error "NameError"

/-- Cell 8: `display(SRwidgets.fileloader)` — binds nothing the model
tracks. -/
def cellDisplayLoader (s : NotebookState) : Except String NotebookState :=
  Except.ok s

/-- Cell 9: the load cell — rebinds `gdf` from `io.from_file`. -/
def cellLoad (s : NotebookState) : Except String NotebookState :=
  match s.widgets with
  | none => Except.error "NameError: name SRwidgets is not defined"
  | some w =>
      match from_file s.store (loadStep w) with
      | none => Except.error "file could not be read"
      | some gdf => Except.ok { s with gdf := some gdf }

/-- The notebook's nine code cells, in on-page order. -/
def notebookCells (E : Externals) :
    List (NotebookState → Except String NotebookState) :=
  [ cellImports, cellInitWidgets E, cellMap E, cellRequest E, cellPlots,
    cellDisplaySaver, cellSave E, cellDisplayLoader, cellLoad ]

/-- Running all cells top to bottom: the sequential composition of the
cell list, aborting at the first uncaught error. -/
def runCells (E : Externals) : Except String NotebookState :=
  (notebookCells E).foldlM (fun s c => c s) (initState E)

/-- The notebook program written straight-line: each cell's operation
inlined in on-page order on the interpreter state. -/
def runProgram (E : Externals) : Except String NotebookState := do
  let s0 := initState E
  let s1 ← cellImports s0
  let s2 ← cellInitWidgets E s1
  let s3 ← cellMap E s2
  let s4 ← cellRequest E s3
  let s5 ← cellPlots s4
  let s6 ← cellDisplaySaver s5
  let s7 ← cellSave E s6
  let s8 ← cellDisplayLoader s7
  cellLoad s8

/-- Whether a step belongs to the request loop's body. -/
def isLoopStep (s : Step) : Bool :=
  s == Step.assembleParms || s == Step.callEndpoint || s == Step.receiveTable

/-- Whether a step renders a figure. -/
def isRenderStep : Step → Bool
  | Step.renderPlot _ => true
  | _ => false

theorem requestEvents_filter_loopless (n : Nat) :
    (requestEvents n).filter (fun s => !(isLoopStep s)) = [] := by
  induction n with
  | zero => rfl
  | succ k ih =>
      simp only [requestEvents, List.replicate_succ, List.flatten_cons,
        List.filter_append] at ih ⊢
      rw [ih]
      rfl

theorem requestEvents_filter_render (n : Nat) :
    (requestEvents n).filter isRenderStep = [] := by
  induction n with
  | zero => rfl
  | succ k ih =>
      simp only [requestEvents, List.replicate_succ, List.flatten_cons,
        List.filter_append] at ih ⊢
      rw [ih]
      rfl

/-- Sample widget settings used to instantiate the theorems below. -/
def sampleWidgets : SRWidgetValues :=
  { asset := Value.str "atlas-local", release := Value.str "004",
    surface_type_index := 0, length := Value.num 40, step := Value.num 20,
    confidence := Value.num 4, land_class := [Value.num 1],
    iteration := Value.num 1, spread := Value.num 20, count := Value.num 10,
    window := Value.num 3, sigma := Value.num 5,
    file := "ATL06-SR.h5", format := FileFormat.hdf5 }

/-- A sample drawn region. -/
def samplePoly : Value :=
  Value.list [Value.dict [("lon", Value.num 0), ("lat", Value.num 0)]]

/-- A sample service version record. -/
def sampleVer : ServiceVersion :=
  { version := Value.str "1.4.0", commit := Value.str "abc1234" }

/-- An empty sample filesystem. -/
def sampleStore : FileStore := fun _ => none

/-- A one-row sample result table. -/
def sampleFrame : Frame := [{ x := 1, y := 2, h_mean := 3 }]

/-- Sample fallible externals whose endpoint call fails with error 7. -/
def sampleCallsE : ExternalCallsE Nat :=
  { atl06p := fun _ => Except.error 7,
    get_version := Except.ok sampleVer,
    renderPlots := fun _ => Except.ok (),
    to_fileE := fun _ => Except.ok (),
    from_fileE := fun _ => Except.ok [] }

/-- C1: for every polygon drawn on the map, the parameter record assembled
and submitted to the processing endpoint is a flat string-keyed mapping
(its keys are exactly the eleven listed ones, without duplicates) holding
the polygon boundary under "poly", the surface-type code under "srt", the
segment length, step distance, confidence level, classification list,
iteration cap, and the spread/count/window/sigma thresholds — and the
records submitted are exactly these, one per drawn polygon. -/
theorem parms_record_flat_mapping (w : SRWidgetValues) (poly : Value)
    (atl06p : Parms → Frame) (regions : List Value) :
    (parmsFor w poly).map Prod.fst =
      ["poly", "srt", "len", "res", "cnf", "atl08_class", "maxi", "ats",
       "cnt", "H_min_win", "sigma_r_max"]
    ∧ ((parmsFor w poly).map Prod.fst).Nodup
    ∧ (parmsFor w poly).lookup "poly" = some poly
    ∧ (parmsFor w poly).lookup "srt" = some (Value.num w.surface_type_index)
    ∧ (parmsFor w poly).lookup "len" = some w.length
    ∧ (parmsFor w poly).lookup "res" = some w.step
    ∧ (parmsFor w poly).lookup "cnf" = some w.confidence
    ∧ (parmsFor w poly).lookup "atl08_class" = some (Value.list w.land_class)
    ∧ (parmsFor w poly).lookup "maxi" = some w.iteration
    ∧ (parmsFor w poly).lookup "ats" = some w.spread
    ∧ (parmsFor w poly).lookup "cnt" = some w.count
    ∧ (parmsFor w poly).lookup "H_min_win" = some w.window
    ∧ (parmsFor w poly).lookup "sigma_r_max" = some w.sigma
    ∧ (requestLoopTraced atl06p w regions).1 = regions.map (parmsFor w) := by
  refine ⟨rfl, ?_, rfl, rfl, rfl, rfl, rfl, rfl, rfl, rfl, rfl, rfl, rfl, ?_⟩
  · have h : (parmsFor w poly).map Prod.fst =
        ["poly", "srt", "len", "res", "cnf", "atl08_class", "maxi", "ats",
         "cnt", "H_min_win", "sigma_r_max"] := rfl
    rw [h]
    decide
  · rw [requestLoopTraced_spec]

/-- C2: the final result table is the concatenation, in drawing order, of
the per-polygon endpoint results, and equals the fold of append starting
from the empty frame; with no drawn region no request is transmitted and
the result is the empty frame. -/
theorem result_is_concat_of_regions (atl06p : Parms → Frame)
    (w : SRWidgetValues) (regions : List Value) :
    requestLoop atl06p w regions =
      (regions.map (fun poly => atl06p (parmsFor w poly))).flatten
    ∧ requestLoop atl06p w regions =
        regions.foldl (fun gdf poly => gdf ++ atl06p (parmsFor w poly))
          emptyframe
    ∧ (requestLoopTraced atl06p w []).1 = []
    ∧ requestLoop atl06p w [] = emptyframe := by
  refine ⟨?_, rfl, rfl, rfl⟩
  rw [requestLoop_eq_traced, requestLoopTraced_spec]

/-- C4: the save and load cells both pass a format argument that is one of
the two tabular formats (HDF5 or netCDF) and the same driver string
"pytables". -/
theorem file_io_two_formats_same_driver (ver : ServiceVersion)
    (w : SRWidgetValues) (regions : List Value) (gdf : Frame)
    (parms : Parms) :
    (toFileArgs ver w regions gdf parms).driver = "pytables"
    ∧ (loadStep w).driver = "pytables"
    ∧ (toFileArgs ver w regions gdf parms).format = w.format
    ∧ (loadStep w).format = w.format
    ∧ ((loadStep w).format = FileFormat.hdf5
       ∨ (loadStep w).format = FileFormat.netcdf) := by
  refine ⟨rfl, rfl, rfl, rfl, ?_⟩
  cases h : w.format with
  | hdf5 => left; simp [loadStep, h]
  | netcdf => right; simp [loadStep, h]

/-- C9: the plotting cell renders exactly two figures — figure 1, the
global map of ground-track locations, and figure 2, the local elevation
map with a colorbar — and however many regions are drawn, the whole
notebook trace contains no figure rendering besides these two. -/
theorem exactly_two_plots (n : Nat) :
    plottingCellFigures.length = 2
    ∧ plottingCellFigures.map Figure.num = [1, 2]
    ∧ plottingCellFigures.map Figure.kind =
        [PlotKind.globalGroundTracks, PlotKind.localElevations]
    ∧ plottingCellFigures.map Figure.hasColorbar = [false, true]
    ∧ (notebookTrace n).filter isRenderStep =
        [Step.renderPlot 1, Step.renderPlot 2] := by
  refine ⟨rfl, rfl, rfl, rfl, ?_⟩
  simp only [notebookTrace, List.filter_append, requestEvents_filter_render]
  rfl

/-- C10: the notebook's behaviour is the sequential composition of its
nine cells: running the straight-line program equals folding the cell list
over the initial interpreter state, with no interleaving. -/
theorem behaviour_is_sequential_composition (E : Externals) :
    runProgram E = runCells E := by
  simp [runProgram, runCells, notebookCells, List.foldlM]

/-- C3 counterexample: with two drawn polygons the literal step ordering
fails — the first polygon's result table is received before the second
polygon's parameter record is assembled, so the trace's flow stages are
not monotone. -/
theorem flow_order_fails_with_two_polygons :
    ¬ List.Sorted (fun a b => a ≤ b) ((notebookTrace 2).map Step.stage) := by
  decide

/-- C3 (amended): the cells run in the fixed order — once the per-polygon
loop events are set aside, the trace is exactly widget setting, polygon
drawing, the two plots, save, load, in that order, for any number of
drawn polygons; the loop contributes only assemble/call/receive events,
and when at most one polygon is drawn the full seven-step flow is
monotone.  With two or more polygons a later polygon's parameter assembly
runs after an earlier polygon's table receipt, so only this weaker
ordering holds. -/
theorem flow_order_of_cells (n : Nat) :
    (notebookTrace n).filter (fun s => !(isLoopStep s)) =
      [Step.setWidgets, Step.drawPolygons, Step.renderPlot 1,
       Step.renderPlot 2, Step.saveFile, Step.loadFile]
    ∧ (∀ s ∈ requestEvents n,
        s = Step.assembleParms ∨ s = Step.callEndpoint ∨
          s = Step.receiveTable)
    ∧ (n ≤ 1 →
        List.Sorted (fun a b => a ≤ b) ((notebookTrace n).map Step.stage)) := by
  refine ⟨?_, requestEvents_mem n, ?_⟩
  · simp only [notebookTrace, List.filter_append, requestEvents_filter_loopless]
    rfl
  · intro h
    interval_cases n <;> decide

/-- C3 witness: with one drawn polygon the seven-step flow is monotone. -/
theorem flow_order_of_cells_witness :
    List.Sorted (fun a b => a ≤ b) ((notebookTrace 1).map Step.stage) :=
  (flow_order_of_cells 1).2.2 (by decide)

/-- C5: the save cell raises a `NameError` exactly when no polygon was
processed; otherwise it persists, as the file's parameters, precisely the
last processed polygon's parameter record with the service "version" and
"commit" appended. -/
theorem save_persists_last_parms (ver : ServiceVersion) (w : SRWidgetValues)
    (regions : List Value) (gdf : Frame) :
    (saveStep ver w regions gdf =
        Except.error "NameError: name parms is not defined" ↔ regions = [])
    ∧ ∀ p, regions.getLast? = some p →
        saveStep ver w regions gdf =
          Except.ok
            { gdf := gdf, file := w.file, format := w.format,
              driver := "pytables",
              parameters := parmsFor w p ++
                [("version", ver.version), ("commit", ver.commit)],
              regions := regions, verbose := true } := by
  constructor
  · constructor
    · intro h
      cases hpa : parmsAfterLoop w regions with
      | some parms => simp [saveStep, hpa] at h
      | none =>
          rw [parmsAfterLoop_eq_last] at hpa
          exact List.getLast?_eq_none_iff.mp (Option.map_eq_none.mp hpa)
    · intro h
      subst h
      rfl
  · intro p hp
    have hpa : parmsAfterLoop w regions = some (parmsFor w p) := by
      rw [parmsAfterLoop_eq_last, hp]
      rfl
    simp only [saveStep, hpa]
    rfl

/-- C5 witness: with one drawn polygon the save cell succeeds and writes
the polygon's record augmented with the version keys; the failure side of
the equivalence is exercised at the empty region list. -/
theorem save_persists_last_parms_witness :
    saveStep sampleVer sampleWidgets [samplePoly] sampleFrame =
      Except.ok
        { gdf := sampleFrame, file := sampleWidgets.file,
          format := sampleWidgets.format, driver := "pytables",
          parameters := parmsFor sampleWidgets samplePoly ++
            [("version", sampleVer.version), ("commit", sampleVer.commit)],
          regions := [samplePoly], verbose := true }
    ∧ saveStep sampleVer sampleWidgets [] sampleFrame =
        Except.error "NameError: name parms is not defined" :=
  ⟨(save_persists_last_parms sampleVer sampleWidgets [samplePoly]
      sampleFrame).2 samplePoly rfl,
   (save_persists_last_parms sampleVer sampleWidgets [] sampleFrame).1.mpr rfl⟩

/-- C6: every row the plotting cell consumes contributes its x coordinate,
its y coordinate and its h_mean elevation to the elevation scatter — the
scatter reads exactly one (x, y, h_mean) triple per table row. -/
theorem plotted_rows_have_coordinates (gdf : Frame) :
    (scatterPoints gdf).length = gdf.length
    ∧ ∀ (i : Nat) (h1 : i < gdf.length)
        (h2 : i < (scatterPoints gdf).length),
        (scatterPoints gdf).get ⟨i, h2⟩ =
          ((gdf.get ⟨i, h1⟩).x, (gdf.get ⟨i, h1⟩).y,
           (gdf.get ⟨i, h1⟩).h_mean) := by
  constructor
  · simp [scatterPoints]
  · intro i h1 h2
    simp [scatterPoints]

/-- C6 witness: on a one-row table the scatter reads that row's
coordinates and elevation. -/
theorem plotted_rows_have_coordinates_witness :
    (scatterPoints sampleFrame).get ⟨0, by decide⟩ = (1, 2, 3) :=
  (plotted_rows_have_coordinates sampleFrame).2 0 (by decide) (by decide)

/-- C7: the load cell is called with the same file path, format and driver
as the save cell, and reading the store right after the save cell wrote it
returns exactly the saved table. -/
theorem save_then_load_roundtrip (store : FileStore) (ver : ServiceVersion)
    (w : SRWidgetValues) (regions : List Value) (gdf : Frame)
    (c : ToFileCall) (h : saveStep ver w regions gdf = Except.ok c) :
    c.file = (loadStep w).file
    ∧ c.format = (loadStep w).format
    ∧ c.driver = (loadStep w).driver
    ∧ from_file (to_file store c) (loadStep w) = some gdf := by
  cases hpa : parmsAfterLoop w regions with
  | none => simp [saveStep, hpa] at h
  | some parms =>
      simp only [saveStep, hpa, Except.ok.injEq] at h
      subst h
      refine ⟨rfl, rfl, rfl, ?_⟩
      simp [from_file, to_file, toFileArgs, loadStep]

/-- C7 witness: a concrete save followed by a load through an empty store
returns the saved table. -/
theorem save_then_load_roundtrip_witness :
    from_file
      (to_file sampleStore
        (toFileArgs sampleVer sampleWidgets [samplePoly] sampleFrame
          (parmsFor sampleWidgets samplePoly)))
      (loadStep sampleWidgets) = some sampleFrame :=
  (save_then_load_roundtrip sampleStore sampleVer sampleWidgets [samplePoly]
      sampleFrame
      (toFileArgs sampleVer sampleWidgets [samplePoly] sampleFrame
        (parmsFor sampleWidgets samplePoly)) rfl).2.2.2

/-- `Except.ok a >>= f` runs the continuation. -/
theorem exceptOkBind {ε α β : Type} (a : α) (f : α → Except ε β) :
    (Except.ok a : Except ε α) >>= f = f a := rfl


/-- `Except.error e >>= f` keeps the error. -/
theorem exceptErrorBind {ε α β : Type} (e : ε) (f : α → Except ε β) :
    (Except.error e : Except ε α) >>= f = Except.error e := rfl


/-- C8: the notebook neither catches nor transforms errors.  Every error
the whole run produces is verbatim an error returned by one of the
external calls (endpoint, plotting, version query, file save, file load)
at the exact argument the notebook passed it — or the interpreter's
`NameError` for the unbound `parms` at zero polygons — and when the first
endpoint call fails, the run fails with that very error, unrecovered. -/
theorem errors_propagate_unchanged {ε : Type} (E : ExternalCallsE ε)
    (nameErr : ε) (w : SRWidgetValues) (regions : List Value) (e : ε) :
    (runNotebookE E nameErr w regions = Except.error e →
      (∃ poly ∈ regions, E.atl06p (parmsFor w poly) = Except.error e)
      ∨ (∃ gdf, runRequestsE E.atl06p w regions = Except.ok gdf ∧
          (E.renderPlots gdf = Except.error e
           ∨ E.get_version = Except.error e
           ∨ (regions = [] ∧ e = nameErr)
           ∨ ∃ ver parms, E.get_version = Except.ok ver ∧
               parmsAfterLoop w regions = some parms ∧
               (E.to_fileE (toFileArgs ver w regions gdf parms) =
                  Except.error e
                ∨ E.from_fileE (loadStep w) = Except.error e))))
    ∧ (∀ poly rest, regions = poly :: rest →
        E.atl06p (parmsFor w poly) = Except.error e →
        runNotebookE E nameErr w regions = Except.error e) := by
  constructor
  · intro h
    simp only [runNotebookE] at h
    cases hreq : runRequestsE E.atl06p w regions with
    | error e1 =>
        rw [hreq, exceptErrorBind] at h
        obtain ⟨p, hp, he⟩ :=
          runRequestsE_error_mem E.atl06p w regions e1 hreq
        exact Or.inl ⟨p, hp,
          he.trans (congrArg Except.error (Except.error.inj h))⟩
    | ok gdf =>
        rw [hreq, exceptOkBind] at h
        refine Or.inr ⟨gdf, rfl, ?_⟩
        cases hpl : E.renderPlots gdf with
        | error e1 =>
            rw [hpl, exceptErrorBind] at h
            exact Or.inl (congrArg Except.error (Except.error.inj h))
        | ok u =>
            rw [hpl, exceptOkBind] at h
            cases hv : E.get_version with
            | error e1 =>
                rw [hv, exceptErrorBind] at h
                exact Or.inr (Or.inl
                  (congrArg Except.error (Except.error.inj h)))
            | ok ver =>
                rw [hv, exceptOkBind] at h
                cases hpa : parmsAfterLoop w regions with
                | none =>
                    simp only [hpa, exceptErrorBind] at h
                    refine Or.inr (Or.inr (Or.inl ⟨?_, (Except.error.inj h).symm⟩))
                    have hlast := parmsAfterLoop_eq_last w regions
                    rw [hpa] at hlast
                    exact List.getLast?_eq_none_iff.mp
                      (Option.map_eq_none.mp hlast.symm)
                | some parms =>
                    simp only [hpa, exceptOkBind] at h
                    cases hsf : E.to_fileE (toFileArgs ver w regions gdf parms) with
                    | error e1 =>
                        rw [hsf, exceptErrorBind] at h
                        exact Or.inr (Or.inr (Or.inr ⟨ver, parms, rfl, rfl,
                          Or.inl (hsf.trans (congrArg Except.error
                            (Except.error.inj h)))⟩))
                    | ok u2 =>
                        rw [hsf, exceptOkBind] at h
                        exact Or.inr (Or.inr (Or.inr ⟨ver, parms, rfl, rfl,
                          Or.inr h⟩))
  · intro poly rest hr hc
    subst hr
    have hreq : runRequestsE E.atl06p w (poly :: rest) = Except.error e := by
      rw [runRequestsE, List.foldlM_cons, hc]
      rfl
    simp only [runNotebookE]
    rw [hreq, exceptErrorBind]

/-- C8 witness: with an endpoint that fails with error 7, the run on one
drawn polygon fails with exactly error 7. -/
theorem errors_propagate_unchanged_witness :
    runNotebookE sampleCallsE 0 sampleWidgets [samplePoly] =
      Except.error 7 :=
  (errors_propagate_unchanged sampleCallsE 0 sampleWidgets [samplePoly] 7).2
    samplePoly [] rfl rfl

end SlideRuleDemo
